import Mathlib

/-!
Shallow embedding of `src/build_dashboard.py` (the single source file of the
chiraath-partner-dashboard repository) together with proofs about the claims
of its specification.

Modelling conventions:
* Spreadsheet cell values (as returned by openpyxl with `data_only=True`) are
  modelled by the inductive type `Val`: `None`, booleans, ints, floats, the
  float NaN, strings, and dates.  A Python float is modelled by its exact
  rational value (every finite IEEE double is a rational); the separate
  constructor `nan` models the non-finite NaN payload.  Datetimes are modelled
  by their date part: the only formatting applied to them (`"%b %d, %Y"` and
  ISO `str`) depends on the date fields alone for the values the claims touch.
* Fallible Python operations (`float(x)` on strings, `int(x)`, workbook and
  sheet lookups, date arithmetic) are modelled with `Option` / `Except`.
* String rendering of floats (`str(x)`) is modelled by the exact decimal
  expansion of the rational value.  CPython prints the shortest round-tripping
  decimal and switches to exponent notation for very large/small magnitudes;
  this difference is immaterial to every claim below (the fallback `str(x)`
  path is only reachable for non-float inputs, and column names in the claims
  are strings).
* `float("nan")` / `float("inf")` succeed in Python; the string parser here
  rejects them (their values are not rationals).  No claim touches these
  three literal strings.
-/

set_option maxRecDepth 8000

namespace Dashboard

/-- Python exception classes that the modelled code can raise. -/
inductive PyErr where
  | ioError        -- FileNotFoundError / OSError
  | badFile        -- openpyxl failing to parse a non-workbook file
  | keyError       -- missing sheet name (`wb[name]`)
  | valueError     -- e.g. `int("x")`, `int(nan)`, strftime on NaT
  | typeError      -- e.g. `int(date)`, `float(None)`
  | overflowError  -- date arithmetic leaving the library's representable range
deriving DecidableEq, Repr

instance {ε α : Type} [DecidableEq ε] [DecidableEq α] : DecidableEq (Except ε α) := fun x y =>
  match x, y with
  | .ok a, .ok b =>
    if h : a = b then isTrue (by rw [h]) else isFalse (fun hh => by cases hh; exact h rfl)
  | .error a, .error b =>
    if h : a = b then isTrue (by rw [h]) else isFalse (fun hh => by cases hh; exact h rfl)
  | .ok _, .error _ => isFalse (fun hh => by cases hh)
  | .error _, .ok _ => isFalse (fun hh => by cases hh)

/-- A spreadsheet cell value as surfaced by openpyxl (`data_only=True`):
`None` for empty cells, or a bool / int / float / string / date((time)). -/
inductive Val where
  | none
  | bool (b : Bool)
  | int (n : ℤ)
  | float (q : ℚ)
  | nan
  | str (s : String)
  | date (y : ℤ) (m d : ℕ)
deriving DecidableEq, Repr

/-- Left-pad a string with zeros to the given length. -/
def zeroPad (len : ℕ) (s : String) : String :=
  String.mk (List.replicate (len - s.length) '0') ++ s

/-- Two-digit zero padded rendering (strftime `%d`, ISO month/day). -/
def pad2 (n : ℕ) : String := zeroPad 2 (toString n)

/-- Four-digit zero padded year (Python pads years to 4 digits). -/
def pad4 (y : ℤ) : String :=
  if 0 ≤ y then zeroPad 4 (toString y.toNat) else "-" ++ zeroPad 4 (toString (-y).toNat)

/-- Smallest `k` with `d ∣ 10 ^ k`, when `d` has only factors 2 and 5
(fuel-driven; called with `fuel = d`). -/
def twoFiveOnly : ℕ → ℕ → Option ℕ
  | _, 0 => Option.none
  | d, fuel + 1 =>
    if d ≤ 1 then some 0
    else if d % 2 = 0 then (twoFiveOnly (d / 2) fuel).map (· + 1)
    else if d % 5 = 0 then (twoFiveOnly (d / 5) fuel).map (· + 1)
    else Option.none

/-- Drop trailing `'0'` characters. -/
def stripZeros (s : String) : String :=
  String.mk (s.toList.reverse.dropWhile (· == '0')).reverse

/-- Model of Python `str` on a float with exact rational value `q`: the exact
decimal expansion (denominators of float values are powers of two, hence of
the form `2^a5^b`). -/
def ratDecString (q : ℚ) : String :=
  let sign := if q < 0 then "-" else ""
  match twoFiveOnly q.den q.den with
  | some k =>
    let a := (q.num.natAbs * (10 ^ k / q.den))
    let ip := a / 10 ^ k
    let fp := a % 10 ^ k
    let fpS := stripZeros (zeroPad k (toString fp))
    sign ++ toString ip ++ "." ++ (if fpS = "" then "0" else fpS)
  | Option.none => sign ++ toString q.num.natAbs ++ "/" ++ toString q.den

/-- Model of Python `str(x)` on cell values. -/
def pyStr : Val → String
  | .none => "None"
  | .bool b => if b then "True" else "False"
  | .int n => toString n
  | .float q => ratDecString q
  | .nan => "nan"
  | .str s => s
  | .date y m d => pad4 y ++ "-" ++ pad2 m ++ "-" ++ pad2 d

/-- Accumulate a digit string into a number; fails on a non-digit. -/
def digitsValAux : ℕ → List Char → Option ℕ
  | acc, [] => some acc
  | acc, c :: cs =>
    if c.isDigit then digitsValAux (acc * 10 + (c.toNat - 48)) cs else Option.none

/-- Parse a nonempty all-digit string. -/
def digitsVal (cs : List Char) : Option ℕ :=
  if cs.isEmpty then Option.none else digitsValAux 0 cs

/-- Python `str.strip()`: drop leading and trailing whitespace. -/
def trimChars (cs : List Char) : List Char :=
  ((cs.dropWhile Char.isWhitespace).reverse.dropWhile Char.isWhitespace).reverse

/-- Split a character list at the first character satisfying `p`
(returning the prefix and, if found, the remainder). -/
def splitOnP (p : Char → Bool) : List Char → List Char × Option (List Char)
  | [] => ([], Option.none)
  | c :: cs =>
    if p c then ([], some cs)
    else
      let r := splitOnP p cs
      (c :: r.1, r.2)

/-- Parse an unsigned decimal mantissa: `digits`, `digits.digits`,
`digits.`, or `.digits`. -/
def parseUFrac (cs : List Char) : Option ℚ :=
  let s := splitOnP (· == '.') cs
  match s.2 with
  | Option.none => (digitsVal cs).map (fun n => mkRat (Int.ofNat n) 1)
  | some fp =>
    if s.1.isEmpty && fp.isEmpty then Option.none
    else
      match digitsValAux 0 s.1, digitsValAux 0 fp with
      | some a, some b =>
        some (mkRat (Int.ofNat (a * 10 ^ fp.length + b)) (10 ^ fp.length))
      | _, _ => Option.none

/-- Apply a sign prefix to a parser. -/
def parseSigned (p : List Char → Option ℚ) : List Char → Option ℚ
  | '+' :: cs => p cs
  | '-' :: cs => (p cs).map Neg.neg
  | cs => p cs

/-- Parse a signed integer exponent. -/
def parseExp : List Char → Option ℤ
  | '+' :: cs => (digitsVal cs).map (fun n => (n : ℤ))
  | '-' :: cs => (digitsVal cs).map (fun n => -(n : ℤ))
  | cs => (digitsVal cs).map (fun n => (n : ℤ))

/-- Model of Python `float(s)` on a string (decimal forms with optional
exponent; `"nan"`/`"inf"` are not modelled, see the header comment). -/
def parseFloatStr (s : String) : Option ℚ :=
  let cs := trimChars s.toList
  let sp := splitOnP (fun c => c == 'e' || c == 'E') cs
  match sp.2 with
  | Option.none => parseSigned parseUFrac cs
  | some ecs =>
    match parseSigned parseUFrac sp.1, parseExp ecs with
    | some m, some e =>
      some (if 0 ≤ e then mkRat (m.num * Int.ofNat (10 ^ e.toNat)) m.den
            else mkRat m.num (m.den * 10 ^ (-e).toNat))
    | _, _ => Option.none

/-- Model of Python `int(s)` on a string (optional sign, digits). -/
def parseIntStr (s : String) : Option ℤ :=
  match trimChars s.toList with
  | '+' :: cs => (digitsVal cs).map (fun n => (n : ℤ))
  | '-' :: cs => (digitsVal cs).map (fun n => -(n : ℤ))
  | cs => (digitsVal cs).map (fun n => (n : ℤ))

/-- Model of Python `float(x)` on cell values: `some q` when the coercion
succeeds with (finite) value `q`, `Option.none` when it raises.  The NaN
float is mapped to `Option.none` as well: its value is not a rational, and
every use below tests for NaN before coercing. -/
def pyFloatOf : Val → Option ℚ
  | .none => Option.none
  | .bool b => some (mkRat (if b then 1 else 0) 1)
  | .int n => some (mkRat n 1)
  | .float q => some q
  | .nan => Option.none
  | .str s => parseFloatStr s
  | .date _ _ _ => Option.none

/-- Model of Python `int(x)` on cell values (raises on NaN, non-integer
strings and dates; truncates floats toward zero). -/
def pyInt : Val → Except PyErr ℤ
  | .none => .error .typeError
  | .bool b => .ok (if b then 1 else 0)
  | .int n => .ok n
  | .float q => .ok (if q < 0 then -⌊-q⌋ else ⌊q⌋)
  | .nan => .error .valueError
  | .str s =>
    match parseIntStr s with
    | some n => .ok n
    | Option.none => .error .valueError
  | .date _ _ _ => .error .typeError

/-- Python truthiness of a cell value (`x or ""` / `and x`). -/
def pyTruthy : Val → Bool
  | .none => false
  | .bool b => b
  | .int n => n ≠ 0
  | .float q => q ≠ 0
  | .nan => true
  | .str s => s ≠ ""
  | .date _ _ _ => true

/-- Round a rational to the nearest integer, ties to even (the rounding used
by Python's fixed-point float formatting).  Computed on the numerator and
(positive) denominator: `f` is the floor and `r = num - f * den` the
remainder, so the fractional part is `r / den`. -/
def roundHalfEven (q : ℚ) : ℤ :=
  let b := Int.ofNat q.den
  let f := q.num.ediv b
  let r := q.num - f * b
  if 2 * r < b then f
  else if b < 2 * r then f + 1
  else if f % 2 = 0 then f else f + 1

/-- Insert a `','` after every third character (used on the reversed digit
string, so the result groups thousands from the right). -/
def group3Rev : List Char → List Char
  | a :: b :: c :: d :: rest => a :: b :: c :: ',' :: group3Rev (d :: rest)
  | l => l

/-- Thousands-grouped decimal rendering of a natural number. -/
def groupDigits (n : ℕ) : String :=
  String.mk (group3Rev (toString n).toList.reverse).reverse

/-- Model of Python `f"{q:,.ndf}"` applied to a float of exact value `q`:
round half-to-even at `nd` decimals, group thousands, keep the sign of the
input (Python prints `-0` for small negatives). -/
def formatFixed (q : ℚ) (nd : ℕ) : String :=
  let m := roundHalfEven (mkRat (q.num * Int.ofNat (10 ^ nd)) q.den)
  let a := m.natAbs
  (if q < 0 then "-" else "")
    ++ groupDigits (a / 10 ^ nd)
    ++ (if nd = 0 then "" else "." ++ zeroPad nd (toString (a % 10 ^ nd)))

/-- `money0` from the source: 0-decimal rupee formatting; `None` and NaN map
to `"₹0"`, failed coercions fall back to `str(x)`. -/
def money0 : Val → String
  | .none => "₹0"
  | .nan => "₹0"
  | v =>
    match pyFloatOf v with
    | some q => "₹" ++ formatFixed q 0
    | Option.none => pyStr v

/-- `money2` from the source: 2-decimal rupee formatting; `None` and NaN map
to `"₹0.00"`, failed coercions fall back to `str(x)`. -/
def money2 : Val → String
  | .none => "₹0.00"
  | .nan => "₹0.00"
  | v =>
    match pyFloatOf v with
    | some q => "₹" ++ formatFixed q 2
    | Option.none => pyStr v

/-!  Date arithmetic.  `datetime(1899, 12, 30) + pd.to_timedelta(float(x),
unit="D")` yields a timestamp whose date part is the proleptic Gregorian date
`1899-12-30 + ⌊x⌋` days (the fractional part is the time of day and does not
affect `strftime("%b %d, %Y")`).  Days are counted from 1970-01-01 below.  The
pandas types bound the reachable dates: `Timedelta` holds at most ±106751
days and `Timestamp` spans 1677-09-21 … 2262-04-11; outside that window the
addition raises.  The model enforces these bounds at day granularity. -/

/-- Days since 1970-01-01 of a proleptic Gregorian date
(Howard Hinnant's `days_from_civil`). -/
def daysFromCivil (y : ℤ) (m d : ℕ) : ℤ :=
  let y2 := if m ≤ 2 then y - 1 else y
  let era := y2.ediv 400
  let yoe := (y2 - era * 400).toNat
  let doy := (153 * (if 2 < m then m - 3 else m + 9) + 2) / 5 + d - 1
  let doe := yoe * 365 + yoe / 4 - yoe / 100 + doy
  era * 146097 + (doe : ℤ) - 719468

/-- Proleptic Gregorian date (year, month, day) of a days-since-1970 count
(Howard Hinnant's `civil_from_days`). -/
def civilFromDays (z0 : ℤ) : ℤ × ℕ × ℕ :=
  let z := z0 + 719468
  let era := z.ediv 146097
  let doe := (z - era * 146097).toNat
  let yoe := (doe - doe / 1460 + doe / 36524 - doe / 146096) / 365
  let doy := doe - (365 * yoe + yoe / 4 - yoe / 100)
  let mp := (5 * doy + 2) / 153
  let d := doy - (153 * mp + 2) / 5 + 1
  let m := if mp < 10 then mp + 3 else mp - 9
  (if m ≤ 2 then (yoe : ℤ) + era * 400 + 1 else (yoe : ℤ) + era * 400, m, d)

/-- The 1899-12-30 epoch used by the date-serial conversion. -/
def epochDays : ℤ := daysFromCivil 1899 12 30

/-- Earliest day reachable by the pandas timestamp arithmetic. -/
def serialMinDay : ℤ := daysFromCivil 1677 9 21

/-- Latest day reachable by the pandas timestamp arithmetic
(also capped by the ±106751-day `Timedelta` range from the epoch). -/
def serialMaxDay : ℤ := min (daysFromCivil 2262 4 11) (epochDays + 106751)

/-- strftime `%b` month abbreviations. -/
def monthAbbrev (m : ℕ) : String :=
  (["Jan", "Feb", "Mar", "Apr", "May", "Jun",
    "Jul", "Aug", "Sep", "Oct", "Nov", "Dec"].getD (m - 1) "")

/-- strftime `"%b %d, %Y"` of a proleptic Gregorian date. -/
def fmtMDY : ℤ × ℕ × ℕ → String
  | (y, m, d) => monthAbbrev m ++ " " ++ pad2 d ++ ", " ++ pad4 y

/-- Render days-since-1970 `z` as `"%b %d, %Y"`, or raise when `z` is outside
the pandas-representable window. -/
def renderSerialDay (z : ℤ) : Except PyErr String :=
  if serialMinDay ≤ z ∧ z ≤ serialMaxDay then .ok (fmtMDY (civilFromDays z))
  else .error .overflowError

/-- `excel_serial_to_datetime` from the source.  Native dates/datetimes are
rendered directly; a *truthy* int/float `x` (Python `bool` included — it is
an `int` instance with value 0 or 1) is rendered as the epoch 1899-12-30 plus
`x` days; everything else (including the serial 0, which is falsy) yields the
placeholder `"—"`.  A NaN serial is truthy, and the resulting NaT timestamp
makes `strftime` raise. -/
def excel_serial_to_datetime : Val → Except PyErr String
  | .date y m d => .ok (fmtMDY (y, m, d))
  | .bool b => if b then renderSerialDay (epochDays + 1) else .ok "—"
  | .int n => if n ≠ 0 then renderSerialDay (epochDays + n) else .ok "—"
  | .float q => if q ≠ 0 then renderSerialDay (epochDays + ⌊q⌋) else .ok "—"
  | .nan => .error .valueError
  | _ => .ok "—"

/-!  Worksheets, workbooks and data frames. -/

/-- A worksheet: finitely many populated cells, addressed by (row, column),
both 1-based.  Cells that are not populated read as `None` (openpyxl). -/
abbrev Sheet : Type := List ((ℕ × ℕ) × Val)

/-- `ws.cell(r, c).value`. -/
def cellAt (ws : Sheet) (r c : ℕ) : Val :=
  ((ws.find? (fun e => e.1 == (r, c))).map (·.2)).getD .none

/-- A workbook: named worksheets. -/
structure Workbook where
  sheets : List (String × Sheet)
deriving DecidableEq

/-- `wb[name]`: `Option.none` models the `KeyError` on a missing sheet. -/
def getSheet (wb : Workbook) (name : String) : Option Sheet :=
  (wb.sheets.find? (·.1 == name)).map (·.2)

/-- A pandas DataFrame as used by the source: ordered column names (cell
values) and rows of cell values. -/
structure DF where
  cols : List Val
  rows : List (List Val)
deriving DecidableEq, Repr

/-- Cell of a data frame by (row index, column index); out-of-range reads
yield `None` (never exercised by the pipeline, which is rectangular). -/
def DF.cell (df : DF) (i j : ℕ) : Val := (df.rows.getD i []).getD j .none

/-- Values of the column labelled `name` (`df[name]`; the pipeline only uses
this on present, uniquely-named columns). -/
def DF.colVals (df : DF) (name : Val) : List Val :=
  match df.cols.indexOf? name with
  | some j => df.rows.map (fun r => r.getD j .none)
  | Option.none => []

/-- `read_range` from the source. -/
def read_range (ws : Sheet) (minRow maxRow minCol maxCol : ℕ) : List (List Val) :=
  (List.range' minRow (maxRow + 1 - minRow)).map fun r =>
    (List.range' minCol (maxCol + 1 - minCol)).map fun c => cellAt ws r c

/-- `df_from_range` from the source: header row supplies the column names,
the data rows the records. -/
def df_from_range (ws : Sheet) (headerRow : ℕ) (dataRows : ℕ × ℕ) (cols : ℕ × ℕ) : DF :=
  { cols := (read_range ws headerRow headerRow cols.1 cols.2).getD 0 []
    rows := read_range ws dataRows.1 dataRows.2 cols.1 cols.2 }

/-- `startsWith` on character lists. -/
def listStartsWith : List Char → List Char → Bool
  | [], _ => true
  | _ :: _, [] => false
  | n :: ns, h :: hs => n == h && listStartsWith ns hs

/-- Containment of `needle` in a character list. -/
def listInfixOf (needle : List Char) : List Char → Bool
  | [] => needle.isEmpty
  | c :: cs => listStartsWith needle (c :: cs) || listInfixOf needle cs

/-- Python `needle in hay` on strings. -/
def strHas (hay needle : String) : Bool := listInfixOf needle.toList hay.toList

/-- Python `str.lower()` (character-wise; the column names involved are
ASCII apart from the "₹" glyph, which lowercasing leaves unchanged). -/
def lowerStr (s : String) : String := String.mk (s.toList.map Char.toLower)

/-- The fixed keyword list of `format_df_currency`. -/
def currencyKeywords : List String :=
  ["amount", "value", "paid", "balance", "target", "excess", "collected",
   "transferred", "share"]

/-- The column test of `format_df_currency`: `"₹" in str(col)` or one of the
keywords occurs in `str(col).lower()`. -/
def isCurrencyName (col : Val) : Bool :=
  let s := pyStr col
  strHas s "₹" || currencyKeywords.any (fun k => strHas (lowerStr s) k)

/-- Rewrite every cell whose column name satisfies `p` with `f`, leaving all
other columns unchanged (the `for col in df2.columns: if …: df2[col] =
df2[col].apply(…)` pattern of the source). -/
def DF.mapMatchingCols (df : DF) (p : Val → Bool) (f : Val → Val) : DF :=
  { cols := df.cols
    rows := df.rows.map fun row =>
      (df.cols.zip row).map fun pr => if p pr.1 then f pr.2 else pr.2 }

/-- `format_df_currency` from the source, up to the record/column-list
serialization: every cell of a currency-named column is rewritten to the
`money2` display string, all other columns pass through unchanged.  (The
source returns `df2.to_dict(orient="records")` and `list(df2.columns)`;
the page below stores the same data as `cols` and `rows`.) -/
def format_df_currency (df : DF) : DF :=
  df.mapMatchingCols isCurrencyName (fun v => .str (money2 v))

/-- `pd.to_numeric(·, errors="coerce").fillna(0)` on one cell: numbers keep
their value, booleans coerce to 0/1, everything unparseable (including `None`
and NaN, via `fillna`) becomes 0. -/
def toNumericFill0 : Val → Val
  | .int n => .int n
  | .float q => .float q
  | .bool b => .int (if b then 1 else 0)
  | .nan => .int 0
  | .none => .int 0
  | .str s =>
    match parseFloatStr s with
    | some q => .float q
    | Option.none => .int 0
  | .date _ _ _ => .int 0

/-- The source's `for c in names: if c in df.columns: df[c] = to_numeric…`
loop: every column whose name is one of `names` is coerced cell-wise. -/
def coerceNumericCols (names : List String) (df : DF) : DF :=
  df.mapMatchingCols (fun col => names.any (fun c => col == .str c)) toNumericFill0

/-- `df.iloc[:, [0, -2, -1]]`: keep the first and the last two columns (the
pipeline applies this to 7-column extracts only; Python would raise for
fewer than 2 columns). -/
def pickFirstLast2 (l : List Val) : List Val :=
  [l.getD 0 .none, l.getD (l.length - 2) .none, l.getD (l.length - 1) .none]

/-- Column narrowing of the contribution and cash-pool tables. -/
def selectFirstLast2 (df : DF) : DF :=
  { cols := pickFirstLast2 df.cols, rows := df.rows.map pickFirstLast2 }

/-!  Charts.  `plotly.io.to_html(fig, include_plotlyjs=…, full_html=False,
config=…)` serializes a figure into an HTML fragment.  The fragment is
modelled as a record of everything the source puts into it that can vary:
the data series, the chart kind and title, whether the plotly.js library
reference is bundled (`include_plotlyjs="cdn"` for the first chart, `False`
for the rest), and the id of the generated `<div>`.  plotly generates that
div id freshly on every call (`div_id=None` makes `to_html` use a random
UUID), so the id is an input supplied by the run environment `Env`, not a
function of the figure. -/

/-- Chart kinds built by the source (grouped bar, line, stacked bar, bar). -/
inductive ChartKind where
  | groupedBar
  | line
  | stackedBar
  | bar
deriving DecidableEq, Repr

/-- Serialized chart markup (see the section comment). -/
structure ChartHtml where
  divId : String
  includeJs : Bool
  kind : ChartKind
  title : String
  xs : List Val
  series : List (String × List Val)
deriving DecidableEq, Repr

/-- One chart slot of the page: embeddable markup or the fixed muted-text
placeholder emitted when expected columns are missing. -/
inductive ChartSlot where
  | placeholder (msg : String)
  | chart (h : ChartHtml)
deriving DecidableEq, Repr

/-- Per-run data that is not a function of the input: the fresh div ids that
plotly's serializer draws for each chart slot. -/
structure Env where
  divIds : ℕ → String

/-- Fixed placeholder of the monthly chart slot. -/
def monthMsg : String :=
  "<div style='color:#6b7280;font-size:13px'>Monthly chart unavailable (columns changed).</div>"

/-- Fixed placeholder of the profit chart slot. -/
def profitMsg : String :=
  "<div style='color:#6b7280;font-size:13px'>Profit chart unavailable (columns changed).</div>"

/-- Fixed placeholder of the category-quantity chart slot. -/
def catQtyMsg : String :=
  "<div style='color:#6b7280;font-size:13px'>Category qty chart unavailable (columns changed).</div>"

/-- Fixed placeholder of the pending-value chart slot. -/
def pendValMsg : String :=
  "<div style='color:#6b7280;font-size:13px'>Pending value chart unavailable (columns changed).</div>"

/-- Monthly chart slot: grouped bar of Purchases/Sales over Month, built iff
`{"Month", "Purchases (₹)", "Sales (₹)"}` is a subset of the columns; the
only slot serialized with `include_plotlyjs="cdn"`. -/
def monthSlot (df : DF) (env : Env) : ChartSlot :=
  if (Val.str "Month") ∈ df.cols ∧ (Val.str "Purchases (₹)") ∈ df.cols
      ∧ (Val.str "Sales (₹)") ∈ df.cols then
    .chart { divId := env.divIds 0, includeJs := true, kind := .groupedBar,
             title := "Monthly Purchases vs Sales",
             xs := df.colVals (.str "Month"),
             series := [("Purchases", df.colVals (.str "Purchases (₹)")),
                        ("Sales", df.colVals (.str "Sales (₹)"))] }
  else .placeholder monthMsg

/-- Profit chart slot: line of Profit over Month (`include_plotlyjs=False`). -/
def profitSlot (df : DF) (env : Env) : ChartSlot :=
  if (Val.str "Month") ∈ df.cols ∧ (Val.str "Profit (₹)") ∈ df.cols then
    .chart { divId := env.divIds 1, includeJs := false, kind := .line,
             title := "Monthly Profit (₹)",
             xs := df.colVals (.str "Month"),
             series := [("Profit (₹)", df.colVals (.str "Profit (₹)"))] }
  else .placeholder profitMsg

/-- Category-quantity chart slot: stacked bar (`include_plotlyjs=False`). -/
def catQtySlot (df : DF) (env : Env) : ChartSlot :=
  if (Val.str "Category") ∈ df.cols ∧ (Val.str "Qty Sold") ∈ df.cols
      ∧ (Val.str "Qty Pending") ∈ df.cols then
    .chart { divId := env.divIds 2, includeJs := false, kind := .stackedBar,
             title := "Quantity by Category",
             xs := df.colVals (.str "Category"),
             series := [("Qty Sold", df.colVals (.str "Qty Sold")),
                        ("Qty Pending", df.colVals (.str "Qty Pending"))] }
  else .placeholder catQtyMsg

/-- Pending-value chart slot: bar (`include_plotlyjs=False`). -/
def pendingValSlot (df : DF) (env : Env) : ChartSlot :=
  if (Val.str "Category") ∈ df.cols ∧ (Val.str "Pending Value (₹)") ∈ df.cols then
    .chart { divId := env.divIds 3, includeJs := false, kind := .bar,
             title := "Pending Stock Value by Category (₹)",
             xs := df.colVals (.str "Category"),
             series := [("Pending Value (₹)", df.colVals (.str "Pending Value (₹)"))] }
  else .placeholder pendValMsg

/-!  The build pipeline. -/

/-- Sheet names (configuration block of the source). -/
def SHEET_SUMMARY : String := "Summary"

/-- Sheet names (configuration block of the source). -/
def SHEET_DASHBOARD : String := "Dashboard"

/-- Public name of the copied spreadsheet. -/
def excel_filename : String := "Chiraath-Business-Summary-Latest.xlsx"

/-- Contribution table step: extract rows 17(header)/18–20, columns A–G of
`Summary`, then keep the first and last two columns. -/
def contribStep (ws : Sheet) : DF :=
  selectFirstLast2 (df_from_range ws 17 (18, 20) (1, 7))

/-- Cash-pool table step: extract rows 25(header)/26–28, columns A–G of
`Summary`, then keep the first and last two columns. -/
def cashStep (ws : Sheet) : DF :=
  selectFirstLast2 (df_from_range ws 25 (26, 28) (1, 7))

/-- Expected numeric columns of the monthly table. -/
def monthNumericCols : List String := ["Purchases (₹)", "Sales (₹)", "Profit (₹)"]

/-- Expected numeric columns of the category-quantity table. -/
def catQtyNumericCols : List String := ["Qty Sold", "Qty Pending"]

/-- Expected numeric column of the pending-value table. -/
def pendValNumericCols : List String := ["Pending Value (₹)"]

/-- Monthly table step: rows 9(header)/10–21, columns A–D of `Dashboard`,
with the expected numeric columns coerced (invalid entries become 0). -/
def monthStep (ws : Sheet) : DF :=
  coerceNumericCols monthNumericCols (df_from_range ws 9 (10, 21) (1, 4))

/-- Category-quantity table step: rows 46(header)/47–49, columns F–H of
`Dashboard`, with the expected numeric columns coerced. -/
def catQtyStep (ws : Sheet) : DF :=
  coerceNumericCols catQtyNumericCols (df_from_range ws 46 (47, 49) (6, 8))

/-- Pending-value table step: rows 46(header)/47–49, columns J–K of
`Dashboard`, with the expected numeric column coerced. -/
def pendValStep (ws : Sheet) : DF :=
  coerceNumericCols pendValNumericCols (df_from_range ws 46 (47, 49) (10, 11))

/-- `int(qty) if qty is not None else "—"` (the KPI count rendering at
lines 209–210 of the source): `None` becomes the placeholder string, any
other value goes through Python `int`, which may raise. -/
def qtyRender : Val → Except PyErr Val
  | .none => .ok (.str "—")
  | v => (pyInt v).map .int

/-- The full render context handed to `tpl.render(...)`, together with the
template text itself: jinja2 rendering is a pure function of the template
text and the context, so the bytes of `index.html` are faithfully
represented by this record. -/
structure Page where
  template : String
  last_updated : String
  qty_sold : Val
  qty_pending : Val
  total_purchases : String
  total_sales_completed : String
  profit_loss : String
  profit_status : String
  pending_stock_value : String
  chart_month : ChartSlot
  chart_profit : ChartSlot
  chart_cat_qty : ChartSlot
  chart_pending_val : ChartSlot
  contrib_cols : List Val
  contrib_records : List (List Val)
  cash_cols : List Val
  cash_records : List (List Val)
  excelName : String
deriving DecidableEq, Repr

/-- The computational core of `build` (everything between the workbook being
opened and `index.html` being written), in source order: sheet lookups, KPI
reads, the "last updated" date formatting, table extraction/narrowing/
coercion, the four chart slots, currency formatting of the two tables,
template read, and the two `int(...)` count conversions inside the
`tpl.render(...)` call.  `tplRes` is the (possibly failing) result of
`template_path.read_text()`, which the source evaluates at line 204, after
the charts. -/
def buildCore (wb : Workbook) (tplRes : Except PyErr String) (env : Env) :
    Except PyErr Page :=
  match getSheet wb SHEET_SUMMARY with
  | Option.none => .error .keyError
  | some wsSum =>
  match getSheet wb SHEET_DASHBOARD with
  | Option.none => .error .keyError
  | some wsDash =>
  let total_purchases := cellAt wsSum 3 2      -- B3
  let total_sales_completed := cellAt wsSum 4 2 -- B4
  let profit_loss := cellAt wsSum 6 2           -- B6
  let profit_status := cellAt wsSum 7 2         -- B7
  match excel_serial_to_datetime (cellAt wsDash 3 2) with -- B3
  | .error e => .error e
  | .ok last_updated =>
  let pending_stock_value := cellAt wsDash 6 5  -- E6
  let qty_sold := cellAt wsDash 10 7            -- G10
  let qty_pending := cellAt wsDash 11 7         -- G11
  let contrib_df := contribStep wsSum
  let cash_df := cashStep wsSum
  let month_df := monthStep wsDash
  let cat_qty_df := catQtyStep wsDash
  let pending_val_df := pendValStep wsDash
  let chart_month := monthSlot month_df env
  let chart_profit := profitSlot month_df env
  let chart_cat_qty := catQtySlot cat_qty_df env
  let chart_pending_val := pendingValSlot pending_val_df env
  let contrib_fmt := format_df_currency contrib_df
  let cash_fmt := format_df_currency cash_df
  match tplRes with
  | .error e => .error e
  | .ok tpl =>
  match qtyRender qty_sold with
  | .error e => .error e
  | .ok qs =>
  match qtyRender qty_pending with
  | .error e => .error e
  | .ok qp =>
  .ok { template := tpl
        last_updated := last_updated
        qty_sold := qs
        qty_pending := qp
        total_purchases := money0 total_purchases
        total_sales_completed := money0 total_sales_completed
        profit_loss := money0 profit_loss
        profit_status := if pyTruthy profit_status then pyStr profit_status else ""
        pending_stock_value := money2 pending_stock_value
        chart_month := chart_month
        chart_profit := chart_profit
        chart_cat_qty := chart_cat_qty
        chart_pending_val := chart_pending_val
        contrib_cols := contrib_fmt.cols
        contrib_records := contrib_fmt.rows
        cash_cols := cash_fmt.cols
        cash_records := cash_fmt.rows
        excelName := excel_filename }

/-!  The filesystem level of `build`. -/

/-- File contents: a workbook, plain text (the template), the rendered
report (`Template(tpl).render(page)`), or unparseable bytes. -/
inductive FileContent where
  | xlsx (wb : Workbook)
  | text (s : String)
  | html (page : Page)
  | junk (tag : ℕ)
deriving DecidableEq

/-- A filesystem: files by path, plus the set of existing directories. -/
structure FS where
  files : List (String × FileContent)
  dirs : List String
deriving DecidableEq

/-- Read a file. -/
def FS.lookup (fs : FS) (p : String) : Option FileContent :=
  (fs.files.find? (·.1 == p)).map (·.2)

/-- `Path.mkdir(parents=True, exist_ok=True)`. -/
def FS.mkdir (fs : FS) (d : String) : FS :=
  if fs.dirs.contains d then fs else { fs with dirs := d :: fs.dirs }

/-- Create or overwrite a file. -/
def FS.writeFile (fs : FS) (p : String) (c : FileContent) : FS :=
  if fs.files.any (·.1 == p) then
    { fs with files := fs.files.map fun e => if e.1 == p then (p, c) else e }
  else { fs with files := fs.files ++ [(p, c)] }

/-- `openpyxl.load_workbook(path, data_only=True)`: raises an I/O error on a
missing file and a parse error on a non-workbook file. -/
def loadWorkbook (fs : FS) (p : String) : Except PyErr Workbook :=
  match fs.lookup p with
  | Option.none => .error .ioError
  | some (.xlsx wb) => .ok wb
  | some _ => .error .badFile

/-- `template_path.read_text(encoding="utf-8")`. -/
def readText (fs : FS) (p : String) : Except PyErr String :=
  match fs.lookup p with
  | some (.text s) => .ok s
  | _ => .error .ioError

/-- `build(input_xlsx, template_path, dist_dir)` from the source, as a state
transformer on the filesystem: create the output directory, load the
workbook, run the computational core, then (only on success) write
`index.html` and the byte-identical copy of the input spreadsheet.  The
first component is the process outcome (`.error e` models the unhandled
exception `e` propagating); the second is the resulting filesystem. -/
def build (input tplPath dist : String) (env : Env) (fs : FS) :
    Except PyErr Unit × FS :=
  match loadWorkbook (fs.mkdir dist) input with
  | .error e => (.error e, fs.mkdir dist)
  | .ok wb =>
    match buildCore wb (readText (fs.mkdir dist) tplPath) env with
    | .error e => (.error e, fs.mkdir dist)
    | .ok page =>
      (.ok (),
        (((fs.mkdir dist).writeFile (dist ++ "/index.html") (.html page)).writeFile
          (dist ++ "/" ++ excel_filename) (.xlsx wb)))

/-!  Auxiliary definitions for the theorems below. -/

/-- The numeric view taken by the serial branch of
`excel_serial_to_datetime` (`isinstance(x, (int, float))`; Python `bool` is
an `int` instance with value 0/1). -/
def serialValue : Val → Option ℚ
  | .bool b => some (mkRat (if b then 1 else 0) 1)
  | .int n => some (mkRat n 1)
  | .float q => some q
  | _ => Option.none

/-- Whether a chart slot holds serialized chart markup (rather than the
placeholder). -/
def isChart : ChartSlot → Bool
  | .chart _ => true
  | .placeholder _ => false

/-- Whether the slot's markup bundles the plotly.js library reference. -/
def slotIncludesJs : ChartSlot → Bool
  | .chart h => h.includeJs
  | .placeholder _ => false

/-- Whether a cell value is numeric (an int or a finite float). -/
def isNumericVal : Val → Bool
  | .int _ => true
  | .float _ => true
  | _ => false

/-- Erase the run-dependent div ids from a chart slot. -/
def stripSlot : ChartSlot → ChartSlot
  | .placeholder m => .placeholder m
  | .chart h => .chart { h with divId := "" }

/-- Erase the run-dependent div ids from a page: everything else in the
rendered report is a function of the input workbook and template. -/
def stripPage (p : Page) : Page :=
  { p with
    chart_month := stripSlot p.chart_month
    chart_profit := stripSlot p.chart_profit
    chart_cat_qty := stripSlot p.chart_cat_qty
    chart_pending_val := stripSlot p.chart_pending_val }

/-- The monthly slot with the div id erased (shared normal form of
`stripSlot (monthSlot df env)` for every `env`). -/
def monthSlotStripped (df : DF) : ChartSlot := stripSlot (monthSlot df ⟨fun _ => ""⟩)

/-- The profit slot with the div id erased. -/
def profitSlotStripped (df : DF) : ChartSlot := stripSlot (profitSlot df ⟨fun _ => ""⟩)

/-- The category-quantity slot with the div id erased. -/
def catQtySlotStripped (df : DF) : ChartSlot := stripSlot (catQtySlot df ⟨fun _ => ""⟩)

/-- The pending-value slot with the div id erased. -/
def pendingValSlotStripped (df : DF) : ChartSlot := stripSlot (pendingValSlot df ⟨fun _ => ""⟩)

/-!  Concrete fixtures for counterexamples and witnesses. -/

/-- A run environment whose chart serializations draw the div id `"a"`. -/
def envA : Env := ⟨fun _ => "a"⟩

/-- A run environment whose chart serializations draw the div id `"b"`. -/
def envB : Env := ⟨fun _ => "b"⟩

/-- A `Dashboard` sheet whose monthly table headers are in place (so the
monthly chart is built) and whose count KPI cells hold ints. -/
def dashSheetC : Sheet :=
  [((9, 1), .str "Month"), ((9, 2), .str "Purchases (₹)"), ((9, 3), .str "Sales (₹)"),
   ((10, 1), .str "Jan"), ((10, 2), .int 100), ((10, 3), .str "x"),
   ((10, 7), .int 5), ((11, 7), .int 3)]

/-- A well-formed input workbook. -/
def wbC : Workbook := ⟨[("Summary", []), ("Dashboard", dashSheetC)]⟩

/-- A filesystem holding the input workbook and the template, with no
output directory yet. -/
def fsC : FS := ⟨[("in.xlsx", .xlsx wbC), ("tpl.html", .text "T")], []⟩

/-- The empty filesystem (no input file, no directories). -/
def fsEmpty : FS := ⟨[], []⟩

/-- A workbook whose quantity-sold KPI cell (`Dashboard!G10`) holds a
non-numeric, non-`None` string. -/
def wbBadQty : Workbook := ⟨[("Summary", []), ("Dashboard", [((10, 7), .str "n/a")])]⟩

/-- A 2-column, 1-row table with a currency-named and a non-currency-named
column. -/
def dfW : DF := ⟨[.str "Target (₹)", .str "Category"], [[.float (mkRat 5 1), .str "Gold"]]⟩

/-- The empty table (all chart columns absent). -/
def dfEmpty : DF := ⟨[], []⟩

/-- A table carrying the three expected monthly-chart columns. -/
def dfMonthW : DF := ⟨[.str "Month", .str "Purchases (₹)", .str "Sales (₹)"], []⟩

/-!  Helper lemmas. -/

/-- `getD` after `map`, inside the bounds. -/
theorem getD_map_lt {α β : Type} (f : α → β) (l : List α) (i : ℕ)
    (h : i < l.length) (d : β) (d' : α) :
    (l.map f).getD i d = f (l.getD i d') := by
  induction l generalizing i with
  | nil => exact absurd h (by simp)
  | cons a t ih =>
    cases i with
    | zero => rfl
    | succ n => exact ih n (by simpa using h)

/-- Pointwise description of a zipped-and-mapped row. -/
theorem zip_if_getD (p : Val → Bool) (f : Val → Val) (cols row : List Val)
    (j : ℕ) (hj : j < cols.length) (hr : row.length = cols.length) :
    ((cols.zip row).map fun pr => if p pr.1 then f pr.2 else pr.2).getD j .none
      = if p (cols.getD j .none) then f (row.getD j .none) else row.getD j .none := by
  induction cols generalizing row j with
  | nil => exact absurd hj (by simp)
  | cons c ct ih =>
    cases row with
    | nil => exact absurd hr (by simp)
    | cons r rt =>
      cases j with
      | zero => rfl
      | succ n => exact ih rt n (by simpa using hj) (by simpa using hr)

/-- Cell-level description of `DF.mapMatchingCols`. -/
theorem cell_mapMatchingCols (df : DF) (p : Val → Bool) (f : Val → Val)
    (i j : ℕ) (hi : i < df.rows.length) (hj : j < df.cols.length)
    (hr : (df.rows.getD i []).length = df.cols.length) :
    (df.mapMatchingCols p f).cell i j
      = if p (df.cols.getD j .none) then f (df.cell i j) else df.cell i j := by
  unfold DF.mapMatchingCols DF.cell
  simp only
  rw [getD_map_lt _ _ _ hi _ []]
  exact zip_if_getD p f df.cols (df.rows.getD i []) j hj hr

/-!  Claim theorems. -/

/-- The float literal 1234.5 as a kernel-reducible rational. -/
theorem ratLit1234p5 : (1234.5 : ℚ) = mkRat 2469 2 := by
  norm_num [Rat.mkRat_eq_div]

/-- C4: the currency formatters are total (they are plain Lean functions into
`String`); the 0-decimal formatter maps 1234.5 to "₹1,234" and both `None`
and NaN to "₹0"; the 2-decimal formatter maps 1234.5 to "₹1,234.50" and both
`None` and NaN to "₹0.00"; for every input whose numeric coercion fails the
formatters return the value's plain string form. -/
theorem c4_money_formatters :
    (money0 (.float 1234.5) = "₹1,234" ∧ money0 Val.none = "₹0" ∧ money0 Val.nan = "₹0"
      ∧ money2 (.float 1234.5) = "₹1,234.50" ∧ money2 Val.none = "₹0.00"
      ∧ money2 Val.nan = "₹0.00")
    ∧ ∀ v, pyFloatOf v = Option.none → v ≠ Val.none → v ≠ Val.nan →
        money0 v = pyStr v ∧ money2 v = pyStr v := by
  refine ⟨by rw [ratLit1234p5]; decide, fun v h hn hnan => ?_⟩
  cases v with
  | none => exact absurd rfl hn
  | bool b => simp [pyFloatOf] at h
  | int n => simp [pyFloatOf] at h
  | float q => simp [pyFloatOf] at h
  | nan => exact absurd rfl hnan
  | str s =>
    simp only [pyFloatOf] at h
    exact ⟨by simp [money0, pyFloatOf, h], by simp [money2, pyFloatOf, h]⟩
  | date y m d => exact ⟨by simp [money0, pyFloatOf], by simp [money2, pyFloatOf]⟩

/-- C4 witness: a string that does not parse as a number falls back to its
plain string form in both formatters. -/
theorem c4_money_formatters_witness :
    money0 (.str "abc") = pyStr (.str "abc") ∧ money2 (.str "abc") = pyStr (.str "abc") :=
  c4_money_formatters.2 (.str "abc") (by decide) (by decide) (by decide)

/-- C6: each of the four chart slots degrades to its fixed muted-text
placeholder whenever one of the expected column names (compared exactly and
case-sensitively) is absent from the extracted table; the slot builders are
total functions into `ChartSlot`, so no exception propagates from chart
building. -/
theorem c6_chart_placeholders (mdf cdf pdf : DF) (env : Env) :
    (¬((Val.str "Month") ∈ mdf.cols ∧ (Val.str "Purchases (₹)") ∈ mdf.cols
        ∧ (Val.str "Sales (₹)") ∈ mdf.cols) →
      monthSlot mdf env = .placeholder monthMsg)
    ∧ (¬((Val.str "Month") ∈ mdf.cols ∧ (Val.str "Profit (₹)") ∈ mdf.cols) →
      profitSlot mdf env = .placeholder profitMsg)
    ∧ (¬((Val.str "Category") ∈ cdf.cols ∧ (Val.str "Qty Sold") ∈ cdf.cols
        ∧ (Val.str "Qty Pending") ∈ cdf.cols) →
      catQtySlot cdf env = .placeholder catQtyMsg)
    ∧ (¬((Val.str "Category") ∈ pdf.cols ∧ (Val.str "Pending Value (₹)") ∈ pdf.cols) →
      pendingValSlot pdf env = .placeholder pendValMsg) := by
  refine ⟨fun h => ?_, fun h => ?_, fun h => ?_, fun h => ?_⟩
  · unfold monthSlot; rw [if_neg h]
  · unfold profitSlot; rw [if_neg h]
  · unfold catQtySlot; rw [if_neg h]
  · unfold pendingValSlot; rw [if_neg h]

/-- C6 witness: on an empty table every chart slot is its placeholder. -/
theorem c6_chart_placeholders_witness :
    monthSlot dfEmpty envA = .placeholder monthMsg
    ∧ profitSlot dfEmpty envA = .placeholder profitMsg
    ∧ catQtySlot dfEmpty envA = .placeholder catQtyMsg
    ∧ pendingValSlot dfEmpty envA = .placeholder pendValMsg :=
  ⟨(c6_chart_placeholders dfEmpty dfEmpty dfEmpty envA).1 (by decide),
   (c6_chart_placeholders dfEmpty dfEmpty dfEmpty envA).2.1 (by decide),
   (c6_chart_placeholders dfEmpty dfEmpty dfEmpty envA).2.2.1 (by decide),
   (c6_chart_placeholders dfEmpty dfEmpty dfEmpty envA).2.2.2 (by decide)⟩

/-- C7: only the first chart slot (the monthly chart) bundles the plotly.js
library reference in its serialized markup (`include_plotlyjs="cdn"`); the
three subsequently built charts always omit it (`include_plotlyjs=False`). -/
theorem c7_plotlyjs_only_first (mdf cdf pdf : DF) (env : Env) :
    (isChart (monthSlot mdf env) = true → slotIncludesJs (monthSlot mdf env) = true)
    ∧ slotIncludesJs (profitSlot mdf env) = false
    ∧ slotIncludesJs (catQtySlot cdf env) = false
    ∧ slotIncludesJs (pendingValSlot pdf env) = false := by
  refine ⟨?_, ?_, ?_, ?_⟩
  · unfold monthSlot; split <;> simp [isChart, slotIncludesJs]
  · unfold profitSlot; split <;> rfl
  · unfold catQtySlot; split <;> rfl
  · unfold pendingValSlot; split <;> rfl

/-- C7 witness: on a table with the three monthly columns present the
monthly chart is built and bundles the library reference. -/
theorem c7_plotlyjs_only_first_witness :
    slotIncludesJs (monthSlot dfMonthW envA) = true :=
  (c7_plotlyjs_only_first dfMonthW dfEmpty dfEmpty envA).1 (by decide)

/-- C8: the contribution and cash-pool tables are narrowed to exactly three
columns — the first column and the last two columns of the 7-column
extracted range, in that order — before currency formatting. -/
theorem c8_tables_narrowed (ws : Sheet) :
    (df_from_range ws 17 (18, 20) (1, 7)).cols.length = 7
    ∧ (contribStep ws).cols = [cellAt ws 17 1, cellAt ws 17 6, cellAt ws 17 7]
    ∧ (contribStep ws).rows = [[cellAt ws 18 1, cellAt ws 18 6, cellAt ws 18 7],
                               [cellAt ws 19 1, cellAt ws 19 6, cellAt ws 19 7],
                               [cellAt ws 20 1, cellAt ws 20 6, cellAt ws 20 7]]
    ∧ (df_from_range ws 25 (26, 28) (1, 7)).cols.length = 7
    ∧ (cashStep ws).cols = [cellAt ws 25 1, cellAt ws 25 6, cellAt ws 25 7]
    ∧ (cashStep ws).rows = [[cellAt ws 26 1, cellAt ws 26 6, cellAt ws 26 7],
                            [cellAt ws 27 1, cellAt ws 27 6, cellAt ws 27 7],
                            [cellAt ws 28 1, cellAt ws 28 6, cellAt ws 28 7]] :=
  ⟨rfl, rfl, rfl, rfl, rfl, rfl⟩

/-- Length of a row of an extracted range. -/
theorem rows_getD_length (ws : Sheet) (r1 nr c1 nc i : ℕ) (hi : i < nr) :
    (((List.range' r1 nr).map fun r =>
        (List.range' c1 nc).map fun c => cellAt ws r c).getD i []).length = nc := by
  rw [getD_map_lt _ _ i (by simpa using hi) [] 0]
  simp

/-- C5: the column-wide currency formatter keeps the column list unchanged
and rewrites exactly the cells of currency-named columns (name containing
"₹" or one of the fixed keywords, case-insensitively) with the 2-decimal
formatter; all other columns pass through unchanged. -/
theorem c5_currency_columns (df : DF) (i j : ℕ)
    (hi : i < df.rows.length) (hj : j < df.cols.length)
    (hr : (df.rows.getD i []).length = df.cols.length) :
    (format_df_currency df).cols = df.cols
    ∧ (format_df_currency df).cell i j
      = if isCurrencyName (df.cols.getD j .none) then .str (money2 (df.cell i j))
        else df.cell i j :=
  ⟨rfl, cell_mapMatchingCols df _ _ i j hi hj hr⟩

/-- C5 witness: in a concrete table, the column named "Target (₹)" is
rewritten by the 2-decimal formatter and the column named "Category" is left
untouched. -/
theorem c5_currency_columns_witness :
    (format_df_currency dfW).cell 0 0 = .str (money2 (.float (mkRat 5 1)))
    ∧ (format_df_currency dfW).cell 0 1 = dfW.cell 0 1 := by
  have h0 := (c5_currency_columns dfW 0 0 (by decide) (by decide) (by decide)).2
  have h1 := (c5_currency_columns dfW 0 1 (by decide) (by decide) (by decide)).2
  refine ⟨?_, ?_⟩
  · rw [h0]; decide
  · rw [h1]; decide

/-- C9: before charting, each expected numeric column that is present in the
extracted monthly / category-quantity / pending-value tables is coerced cell
by cell with `pd.to_numeric(errors="coerce").fillna(0)`; the coercion always
yields a numeric value, and entries that do not parse as numbers (as well as
`None` and NaN) become zero. -/
theorem c9_numeric_coercion (ws : Sheet) (i j : ℕ) :
    (i < 12 → j < 4 →
      (monthStep ws).cell i j
        = if monthNumericCols.any
              (fun c => (df_from_range ws 9 (10, 21) (1, 4)).cols.getD j .none == Val.str c)
          then toNumericFill0 ((df_from_range ws 9 (10, 21) (1, 4)).cell i j)
          else (df_from_range ws 9 (10, 21) (1, 4)).cell i j)
    ∧ (i < 3 → j < 3 →
      (catQtyStep ws).cell i j
        = if catQtyNumericCols.any
              (fun c => (df_from_range ws 46 (47, 49) (6, 8)).cols.getD j .none == Val.str c)
          then toNumericFill0 ((df_from_range ws 46 (47, 49) (6, 8)).cell i j)
          else (df_from_range ws 46 (47, 49) (6, 8)).cell i j)
    ∧ (i < 3 → j < 2 →
      (pendValStep ws).cell i j
        = if pendValNumericCols.any
              (fun c => (df_from_range ws 46 (47, 49) (10, 11)).cols.getD j .none == Val.str c)
          then toNumericFill0 ((df_from_range ws 46 (47, 49) (10, 11)).cell i j)
          else (df_from_range ws 46 (47, 49) (10, 11)).cell i j)
    ∧ (∀ v, isNumericVal (toNumericFill0 v) = true)
    ∧ (∀ s, parseFloatStr s = Option.none → toNumericFill0 (.str s) = .int 0)
    ∧ toNumericFill0 Val.none = .int 0 ∧ toNumericFill0 Val.nan = .int 0 := by
  refine ⟨fun hi hj => ?_, fun hi hj => ?_, fun hi hj => ?_, fun v => ?_, fun s h => ?_, rfl, rfl⟩
  · exact cell_mapMatchingCols (df_from_range ws 9 (10, 21) (1, 4)) _ toNumericFill0 i j
      hi hj (rows_getD_length ws 10 12 1 4 i hi)
  · exact cell_mapMatchingCols (df_from_range ws 46 (47, 49) (6, 8)) _ toNumericFill0 i j
      hi hj (rows_getD_length ws 47 3 6 3 i hi)
  · exact cell_mapMatchingCols (df_from_range ws 46 (47, 49) (10, 11)) _ toNumericFill0 i j
      hi hj (rows_getD_length ws 47 3 10 2 i hi)
  · cases v <;> simp [toNumericFill0, isNumericVal]
    case str s => cases parseFloatStr s <;> simp [isNumericVal]
  · simp [toNumericFill0, h]

/-- C9 witness: in a concrete `Dashboard` sheet, the non-numeric entry under
"Sales (₹)" is replaced by zero and the numeric entry under "Purchases (₹)"
is kept. -/
theorem c9_numeric_coercion_witness :
    (monthStep dashSheetC).cell 0 2 = .int 0
    ∧ (monthStep dashSheetC).cell 0 1 = .int 100 := by
  have h2 := (c9_numeric_coercion dashSheetC 0 2).1 (by decide) (by decide)
  have h1 := (c9_numeric_coercion dashSheetC 0 1).1 (by decide) (by decide)
  refine ⟨?_, ?_⟩
  · rw [h2]; decide
  · rw [h1]; decide

/-- C10: the integer-count KPI rendering is not total: a `None` quantity
cell renders as the placeholder "—", while a non-`None` value that `int()`
cannot convert raises, and the exception propagates out of the whole build
core. -/
theorem c10_count_kpi_not_total :
    qtyRender Val.none = .ok (.str "—")
    ∧ (∀ s, parseIntStr s = Option.none → qtyRender (.str s) = .error .valueError)
    ∧ buildCore wbBadQty (.ok "T") envA = .error .valueError := by
  refine ⟨rfl, fun s h => ?_, by decide⟩
  simp [qtyRender, pyInt, h, Except.map]

/-- C10 witness: the concrete non-numeric string "n/a" makes the count
rendering raise. -/
theorem c10_count_kpi_not_total_witness :
    qtyRender (.str "n/a") = .error .valueError :=
  c10_count_kpi_not_total.2.1 "n/a" (by decide)

/-- C3 (amended): whenever `build` fails — for any reason, which covers the
missing-input, missing-sheet and unreadable-workbook cases — the resulting
filesystem is exactly the initial one with the output directory created: no
file is created or modified, but the output directory *is* created before
the input is even opened. -/
theorem c3_failing_run_state (input tplPath dist : String) (env : Env) (fs : FS)
    (e : PyErr) (h : (build input tplPath dist env fs).1 = .error e) :
    (build input tplPath dist env fs).2 = fs.mkdir dist := by
  unfold build at h ⊢
  cases h1 : loadWorkbook (fs.mkdir dist) input with
  | error e2 => simp [h1]
  | ok wb =>
    simp only [h1] at h ⊢
    cases h2 : buildCore wb (readText (fs.mkdir dist) tplPath) env with
    | error e2 => simp [h2]
    | ok page =>
      rw [h2] at h
      simp at h

/-- C3 witness: a failing run over the empty filesystem (missing input file)
leaves exactly the created output directory behind. -/
theorem c3_failing_run_state_witness :
    (build "in.xlsx" "tpl.html" "docs" envA fsEmpty).2 = fsEmpty.mkdir "docs" :=
  c3_failing_run_state "in.xlsx" "tpl.html" "docs" envA fsEmpty .ioError (by decide)

/-- C3 counterexample: on a failing run (missing input file) starting from a
filesystem without the output directory, the claim "no output directory …
is created or modified on any failing run" is false: the run fails with an
I/O error, yet the filesystem has changed (the output directory now
exists). -/
theorem c3_failing_run_creates_dir :
    (build "in.xlsx" "tpl.html" "docs" envA fsEmpty).1 = .error .ioError
    ∧ (build "in.xlsx" "tpl.html" "docs" envA fsEmpty).2 ≠ fsEmpty
    ∧ (build "in.xlsx" "tpl.html" "docs" envA fsEmpty).2.dirs = ["docs"] := by
  decide

/-- Stripping the div id normalizes the monthly slot across environments. -/
theorem stripSlot_month (df : DF) (env : Env) :
    stripSlot (monthSlot df env) = monthSlotStripped df := by
  unfold monthSlotStripped monthSlot
  split <;> rfl

/-- Stripping the div id normalizes the profit slot across environments. -/
theorem stripSlot_profit (df : DF) (env : Env) :
    stripSlot (profitSlot df env) = profitSlotStripped df := by
  unfold profitSlotStripped profitSlot
  split <;> rfl

/-- Stripping the div id normalizes the category-quantity slot across
environments. -/
theorem stripSlot_catQty (df : DF) (env : Env) :
    stripSlot (catQtySlot df env) = catQtySlotStripped df := by
  unfold catQtySlotStripped catQtySlot
  split <;> rfl

/-- Stripping the div id normalizes the pending-value slot across
environments. -/
theorem stripSlot_pendingVal (df : DF) (env : Env) :
    stripSlot (pendingValSlot df env) = pendingValSlotStripped df := by
  unfold pendingValSlotStripped pendingValSlot
  split <;> rfl

/-- C1 (amended): the build core is deterministic in everything except the
chart div identifiers freshly generated by the charting library's serializer
on each run: for any two runs over the same workbook and template, the
outcomes agree exactly after erasing the div ids — in particular, two runs
given the same identifiers produce identical `index.html` bytes, and no
locally generated timestamp or other run-to-run source of variation exists
in the pipeline. -/
theorem c1_deterministic_up_to_div_ids (wb : Workbook) (tplRes : Except PyErr String)
    (env1 env2 : Env) :
    (buildCore wb tplRes env1).map stripPage = (buildCore wb tplRes env2).map stripPage := by
  cases h1 : getSheet wb SHEET_SUMMARY with
  | none => simp [buildCore, h1, Except.map]
  | some wsSum =>
    cases h2 : getSheet wb SHEET_DASHBOARD with
    | none => simp [buildCore, h1, h2, Except.map]
    | some wsDash =>
      cases h3 : excel_serial_to_datetime (cellAt wsDash 3 2) with
      | error e => simp [buildCore, h1, h2, h3, Except.map]
      | ok lu =>
        cases tplRes with
        | error e => simp [buildCore, h1, h2, h3, Except.map]
        | ok tpl =>
          cases h4 : qtyRender (cellAt wsDash 10 7) with
          | error e => simp [buildCore, h1, h2, h3, h4, Except.map]
          | ok qs =>
            cases h5 : qtyRender (cellAt wsDash 11 7) with
            | error e => simp [buildCore, h1, h2, h3, h4, h5, Except.map]
            | ok qp =>
              simp [buildCore, h1, h2, h3, h4, h5, Except.map, stripPage,
                    stripSlot_month, stripSlot_profit, stripSlot_catQty,
                    stripSlot_pendingVal]

/-- C1 counterexample: two runs of `build` on the *same* input filesystem
(same workbook, same template) whose chart serializations draw different
div identifiers produce different `index.html` contents, so the output is
not byte-identical across runs and is not a function of the input alone. -/
theorem c1_two_runs_differ :
    (build "in.xlsx" "tpl.html" "docs" envA fsC).2.lookup "docs/index.html"
      ≠ (build "in.xlsx" "tpl.html" "docs" envB fsC).2.lookup "docs/index.html" := by
  decide

/-- C2 (amended): for every numeric date-serial value `q` that is *nonzero*
(and whose target day the timestamp library can represent), the date
formatter returns the `"%b %d, %Y"` rendering of 1899-12-30 plus `⌊q⌋` days
(the fractional part is time-of-day and does not affect the rendered date).
The serial 0 is falsy in Python and is rendered as the placeholder instead
(see the counterexample). -/
theorem c2_nonzero_serial (v : Val) (q : ℚ) (hv : serialValue v = some q) (hq : q ≠ 0)
    (hmin : serialMinDay ≤ epochDays + ⌊q⌋) (hmax : epochDays + ⌊q⌋ ≤ serialMaxDay) :
    excel_serial_to_datetime v = .ok (fmtMDY (civilFromDays (epochDays + ⌊q⌋))) := by
  cases v with
  | none => simp [serialValue] at hv
  | nan => simp [serialValue] at hv
  | str s => simp [serialValue] at hv
  | date y m d => simp [serialValue] at hv
  | bool b =>
    cases b with
    | false =>
      simp only [serialValue, Bool.false_eq_true, if_false, Option.some.injEq] at hv
      subst hv
      exact absurd (by decide) hq
    | true =>
      simp only [serialValue, if_true, Option.some.injEq] at hv
      subst hv
      have hf : (⌊(mkRat 1 1 : ℚ)⌋ : ℤ) = 1 := by decide
      rw [hf] at hmin hmax
      show renderSerialDay (epochDays + 1) = _
      rw [hf]
      unfold renderSerialDay
      rw [if_pos ⟨hmin, hmax⟩]
  | int n =>
    simp only [serialValue, Option.some.injEq] at hv
    subst hv
    have hne : n ≠ 0 := fun h0 => hq (by rw [h0]; decide)
    have hf : ⌊(mkRat n 1 : ℚ)⌋ = n := by
      rw [Rat.mkRat_one]
      exact Int.floor_intCast n
    rw [hf] at hmin hmax ⊢
    show (if n ≠ 0 then renderSerialDay (epochDays + n) else .ok "—") = _
    rw [if_pos hne]
    unfold renderSerialDay
    rw [if_pos ⟨hmin, hmax⟩]
  | float q2 =>
    simp only [serialValue, Option.some.injEq] at hv
    subst hv
    show (if q2 ≠ 0 then renderSerialDay (epochDays + ⌊q2⌋) else .ok "—") = _
    rw [if_pos hq]
    unfold renderSerialDay
    rw [if_pos ⟨hmin, hmax⟩]

/-- C2 witness: the serial 1 renders as the epoch plus one day,
"Dec 31, 1899". -/
theorem c2_nonzero_serial_witness :
    excel_serial_to_datetime (.int 1)
      = .ok (fmtMDY (civilFromDays (epochDays + ⌊(mkRat 1 1 : ℚ)⌋))) :=
  c2_nonzero_serial (.int 1) (mkRat 1 1) rfl (by decide) (by decide) (by decide)

/-- C2 counterexample: the numeric serial 0 — both as an int and as a float
— is rendered as the placeholder "—", not as "Dec 30, 1899": the guard
`isinstance(x, (int, float)) and x` treats the (falsy) zero serial as a
missing value. -/
theorem c2_serial_zero_is_placeholder :
    excel_serial_to_datetime (.int 0) = .ok "—"
    ∧ excel_serial_to_datetime (.float (mkRat 0 1)) = .ok "—"
    ∧ ("—" : String) ≠ "Dec 30, 1899" := by
  decide

end Dashboard
